import Mathlib

/-!
Verification of the geometric layout core of the euro-proxy architecture map.

The embedded functions are the pure geometry helpers of
`src/EuroProxyArchitectureMap.tsx`: `buildLinePath`, `midpoint`, `rectCenter`,
`rectEdges`, `anchorPoint`, `standoff`, `buildPolylinePath` and the `routed`
connector helper. Coordinates are real-valued in the source; we model them as
rationals (`ℚ`), which carry the same exact field arithmetic for the
operations used (addition, subtraction, halving). The TypeScript `Side` type
is a union of the string literals "top" | "right" | "bottom" | "left", and the
`switch` statements carry a defensive `default` branch reachable for any other
string, so we model `Side` as `String` and the switches as literal-equality
chains. An SVG path string "M x y L x y ..." is modelled as the list of its
drawing commands (`PathCmd`), since the string is a direct serialization of
that command sequence.
-/

namespace EuroProxy

/-- A 2D point, `type Pt = { x: number; y: number }`. -/
structure Pt where
  x : ℚ
  y : ℚ
deriving DecidableEq, Repr

/-- An axis-aligned rectangle, `type Rect = { x; y; w; h }` (x,y = top-left). -/
structure Rect where
  x : ℚ
  y : ℚ
  w : ℚ
  h : ℚ
deriving DecidableEq, Repr

/-- `Side` is a union of string literals in the source; runtime values are
strings, and the geometry switches have default branches for any other
string, so we model the type as `String`. -/
abbrev Side := String

/-- One command of an SVG path string: `M x y` (move-to) or `L x y`
(line-to). A path string such as "M 1 2 L 3 4" is the serialization of a
list of these commands; the empty string is the empty list. -/
inductive PathCmd where
  | M (p : Pt)
  | L (p : Pt)
deriving DecidableEq, Repr

/-- The point carried by a path command. -/
def cmdPoint : PathCmd → Pt
  | .M p => p
  | .L p => p

/-- `buildLinePath(from, to)` returns `M from.x from.y L to.x to.y`. -/
def buildLinePath (fromP toP : Pt) : List PathCmd :=
  [PathCmd.M fromP, PathCmd.L toP]

/-- `midpoint(from, to)` returns
`{ x: from.x + (to.x - from.x) * 0.5, y: from.y + (to.y - from.y) * 0.5 }`. -/
def midpoint (fromP toP : Pt) : Pt :=
  { x := fromP.x + (toP.x - fromP.x) * 0.5, y := fromP.y + (toP.y - fromP.y) * 0.5 }

/-- `rectCenter(r)` returns `{ x: r.x + r.w / 2, y: r.y + r.h / 2 }`. -/
def rectCenter (r : Rect) : Pt :=
  { x := r.x + r.w / 2, y := r.y + r.h / 2 }

/-- The record returned by `rectEdges`. -/
structure Edges where
  left : ℚ
  right : ℚ
  top : ℚ
  bottom : ℚ
deriving DecidableEq, Repr

/-- `rectEdges(r)` returns
`{ left: r.x, right: r.x + r.w, top: r.y, bottom: r.y + r.h }`. -/
def rectEdges (r : Rect) : Edges :=
  { left := r.x, right := r.x + r.w, top := r.y, bottom := r.y + r.h }

/-- `anchorPoint(r, side)`: switch over the side strings, with the
rectangle center as the `default` branch. -/
def anchorPoint (r : Rect) (side : Side) : Pt :=
  let c := rectCenter r
  let e := rectEdges r
  if side = "top" then { x := c.x, y := e.top }
  else if side = "right" then { x := e.right, y := c.y }
  else if side = "bottom" then { x := c.x, y := e.bottom }
  else if side = "left" then { x := e.left, y := c.y }
  else c

/-- `standoff(p, side, d)`: switch over the side strings, offsetting one
coordinate outward by `d`, with `p` itself as the `default` branch. -/
def standoff (p : Pt) (side : Side) (d : ℚ) : Pt :=
  if side = "top" then { x := p.x, y := p.y - d }
  else if side = "right" then { x := p.x + d, y := p.y }
  else if side = "bottom" then { x := p.x, y := p.y + d }
  else if side = "left" then { x := p.x - d, y := p.y }
  else p

/-- `buildPolylinePath(points)`: the empty path when fewer than 2 points,
otherwise `M first.x first.y` followed by `L p.x p.y` for each remaining
point in order. -/
def buildPolylinePath (points : List Pt) : List PathCmd :=
  if points.length < 2 then []
  else
    match points with
    | [] => []
    | first :: rest => PathCmd.M first :: rest.map PathCmd.L

/-- The `routed` helper (the routing function `routeConnector` of the spec):
`[start, startOut, ...via, endOut, end]` with a standoff distance of 28. -/
def routed (startRect : Rect) (startSide : Side) (endRect : Rect) (endSide : Side)
    (via : List Pt) : List Pt :=
  let start := anchorPoint startRect startSide
  let endP := anchorPoint endRect endSide
  let startOut := standoff start startSide 28
  let endOut := standoff endP endSide 28
  [start, startOut] ++ via ++ [endOut, endP]

/-- The opposite of a side (top↔bottom, left↔right); any unrecognized side
maps to itself. Used only to state the reversibility property. -/
def oppositeSide (s : Side) : Side :=
  if s = "top" then "bottom"
  else if s = "bottom" then "top"
  else if s = "left" then "right"
  else if s = "right" then "left"
  else s

/-- Linear interpolation at parameter `t` between two points, as the spec
phrases it: `(a.x + (b.x-a.x)*t, a.y + (b.y-a.y)*t)`. -/
def lerp (t : ℚ) (a b : Pt) : Pt :=
  { x := a.x + (b.x - a.x) * t, y := a.y + (b.y - a.y) * t }

/-- Helper: a valid polyline (≥ 2 points) visits exactly the input points in
the input order. -/
theorem polyline_visits (points : List Pt) (h : 2 ≤ points.length) :
    (buildPolylinePath points).map cmdPoint = points := by
  match points with
  | [] => simp at h
  | [p] => simp at h
  | p :: q :: rest =>
    have hlt : ¬ rest.length + 1 + 1 < 2 := by omega
    simp [buildPolylinePath, hlt, cmdPoint, List.map_map, Function.comp_def]

/-- Helper: the last element of a list ending in an explicit pair. -/
theorem getLast_append_pair (l : List Pt) (a b : Pt) :
    (l ++ [a, b]).getLast? = some b := by
  induction l with
  | nil => rfl
  | cons x xs ih =>
    rw [List.cons_append]
    cases hxs : xs ++ [a, b] with
    | nil => simp at hxs
    | cons y ys =>
      rw [List.getLast?_cons_cons, ← hxs, ih]

/-- C1: for all rectangles, sides and via lists, `routed` returns exactly the
concatenation `[start, startOut] ++ via ++ [endOut, end]` of the two anchor
points, their 28-unit standoffs and the via points in order; with an empty
via list the result is exactly the 4-point list
`[start, startOut, endOut, end]`. -/
theorem routed_is_concat (sr : Rect) (ss : Side) (er : Rect) (es : Side)
    (via : List Pt) :
    routed sr ss er es via =
      anchorPoint sr ss :: standoff (anchorPoint sr ss) ss 28 ::
        (via ++ [standoff (anchorPoint er es) es 28, anchorPoint er es]) ∧
    routed sr ss er es [] =
      [anchorPoint sr ss, standoff (anchorPoint sr ss) ss 28,
       standoff (anchorPoint er es) es 28, anchorPoint er es] := by
  constructor <;> simp [routed]

/-- C2: the sequence returned by `routed` always begins with the start
anchor point and ends with the end anchor point, for every via list. -/
theorem routed_first_last (sr : Rect) (ss : Side) (er : Rect) (es : Side)
    (via : List Pt) :
    (routed sr ss er es via).head? = some (anchorPoint sr ss) ∧
    (routed sr ss er es via).getLast? = some (anchorPoint er es) := by
  constructor
  · rfl
  · show ((anchorPoint sr ss :: standoff (anchorPoint sr ss) ss 28 :: via) ++
      [standoff (anchorPoint er es) es 28, anchorPoint er es]).getLast? = _
    rw [getLast_append_pair]

/-- C3: for rectangles with positive width and height, each anchor point is
the midpoint of the named edge, lying exactly on the boundary, and the
top/bottom anchors share the center x while the left/right anchors share the
center y. -/
theorem anchorPoint_edge_midpoints (r : Rect) (hw : 0 < r.w) (hh : 0 < r.h) :
    anchorPoint r "top" = { x := r.x + r.w / 2, y := r.y } ∧
    anchorPoint r "bottom" = { x := r.x + r.w / 2, y := r.y + r.h } ∧
    anchorPoint r "left" = { x := r.x, y := r.y + r.h / 2 } ∧
    anchorPoint r "right" = { x := r.x + r.w, y := r.y + r.h / 2 } ∧
    (anchorPoint r "top").x = (rectCenter r).x ∧
    (anchorPoint r "bottom").x = (rectCenter r).x ∧
    (anchorPoint r "left").y = (rectCenter r).y ∧
    (anchorPoint r "right").y = (rectCenter r).y := by
  refine ⟨?_, ?_, ?_, ?_, ?_, ?_, ?_, ?_⟩ <;> rfl

/-- C3 witness: the spec's concrete rectangle `{x:100,y:50,w:200,h:100}`. -/
theorem anchorPoint_edge_midpoints_witness :
    (0 : ℚ) < 200 ∧ (0 : ℚ) < 100 ∧
    anchorPoint { x := 100, y := 50, w := 200, h := 100 } "top" =
      { x := 200, y := 50 } := by
  refine ⟨by norm_num, by norm_num, ?_⟩
  have h := (anchorPoint_edge_midpoints { x := 100, y := 50, w := 200, h := 100 }
    (by norm_num) (by norm_num)).1
  rw [h]
  norm_num [Pt.mk.injEq]

/-- C4: with fewer than 2 points `buildPolylinePath` returns the empty path
rather than failing; with at least 2 points it returns a descriptor visiting
every input point in the given order. -/
theorem buildPolylinePath_contract (points : List Pt) :
    (points.length < 2 → buildPolylinePath points = []) ∧
    (2 ≤ points.length → (buildPolylinePath points).map cmdPoint = points) := by
  constructor
  · intro h
    simp [buildPolylinePath, h]
  · exact polyline_visits points

/-- C4 witness: a singleton yields the empty path; a 2-point list yields a
descriptor visiting both points in order. -/
theorem buildPolylinePath_contract_witness :
    ([{ x := 0, y := 0 }] : List Pt).length < 2 ∧
    buildPolylinePath [{ x := 0, y := 0 }] = [] ∧
    2 ≤ ([{ x := 0, y := 0 }, { x := 3, y := 4 }] : List Pt).length ∧
    (buildPolylinePath [{ x := 0, y := 0 }, { x := 3, y := 4 }]).map cmdPoint =
      [{ x := 0, y := 0 }, { x := 3, y := 4 }] := by
  refine ⟨by decide, (buildPolylinePath_contract [{ x := 0, y := 0 }]).1 (by decide),
    by decide, (buildPolylinePath_contract _).2 (by decide)⟩

/-- C5: for non-negative distances, a zero standoff is the identity and two
standoffs on the same side add up: `standoff (standoff p s d1) s d2 =
standoff p s (d1 + d2)`. -/
theorem standoff_zero_and_additive (p : Pt) (s : Side) (d1 d2 : ℚ)
    (h1 : 0 ≤ d1) (h2 : 0 ≤ d2) :
    standoff p s 0 = p ∧
    standoff (standoff p s d1) s d2 = standoff p s (d1 + d2) := by
  obtain ⟨px, py⟩ := p
  constructor <;>
    · simp only [standoff]
      split_ifs <;> simp [Pt.mk.injEq] <;> ring

/-- C5 witness: concrete distances 3 and 4 on the top side. -/
theorem standoff_zero_and_additive_witness :
    (0 : ℚ) ≤ 3 ∧ (0 : ℚ) ≤ 4 ∧
    standoff { x := 1, y := 2 } "top" 0 = { x := 1, y := 2 } ∧
    standoff (standoff { x := 1, y := 2 } "top" 3) "top" 4 =
      standoff { x := 1, y := 2 } "top" (3 + 4) := by
  refine ⟨by norm_num, by norm_num, ?_, ?_⟩
  · exact (standoff_zero_and_additive { x := 1, y := 2 } "top" 3 4
      (by norm_num) (by norm_num)).1
  · exact (standoff_zero_and_additive { x := 1, y := 2 } "top" 3 4
      (by norm_num) (by norm_num)).2

/-- C6: any side value outside {top, right, bottom, left} makes
`anchorPoint` return the rectangle center rather than failing. -/
theorem anchorPoint_unrecognized (r : Rect) (s : Side)
    (h : s ≠ "top" ∧ s ≠ "right" ∧ s ≠ "bottom" ∧ s ≠ "left") :
    anchorPoint r s = rectCenter r := by
  obtain ⟨h1, h2, h3, h4⟩ := h
  simp [anchorPoint, h1, h2, h3, h4]

/-- C6 witness: the unrecognized side "diag". -/
theorem anchorPoint_unrecognized_witness :
    (("diag" : Side) ≠ "top" ∧ ("diag" : Side) ≠ "right" ∧
      ("diag" : Side) ≠ "bottom" ∧ ("diag" : Side) ≠ "left") ∧
    anchorPoint { x := 1, y := 2, w := 3, h := 4 } "diag" =
      rectCenter { x := 1, y := 2, w := 3, h := 4 } := by
  refine ⟨by decide, ?_⟩
  exact anchorPoint_unrecognized { x := 1, y := 2, w := 3, h := 4 } "diag" (by decide)

/-- C7: `midpoint` is symmetric in its arguments, and equals linear
interpolation at parameter 0.5. -/
theorem midpoint_symm_lerp (a b : Pt) :
    midpoint a b = midpoint b a ∧ midpoint a b = lerp 0.5 a b := by
  obtain ⟨ax, ay⟩ := a
  obtain ⟨bx, b2⟩ := b
  refine ⟨?_, rfl⟩
  simp only [midpoint, Pt.mk.injEq]
  constructor <;> ring

/-- C8: building a polyline from the reversed point list (≥ 2 points)
visits exactly the same points in reverse order. -/
theorem buildPolylinePath_reverse_points (points : List Pt)
    (h : 2 ≤ points.length) :
    (buildPolylinePath points.reverse).map cmdPoint =
      ((buildPolylinePath points).map cmdPoint).reverse := by
  rw [polyline_visits points.reverse (by simpa using h), polyline_visits points h]

/-- C8 witness: a concrete 3-point polyline. -/
theorem buildPolylinePath_reverse_points_witness :
    2 ≤ ([{ x := 0, y := 0 }, { x := 1, y := 1 }, { x := 2, y := 5 }] : List Pt).length ∧
    (buildPolylinePath
        ([{ x := 0, y := 0 }, { x := 1, y := 1 }, { x := 2, y := 5 }] : List Pt).reverse).map
        cmdPoint =
      ((buildPolylinePath
          [{ x := 0, y := 0 }, { x := 1, y := 1 }, { x := 2, y := 5 }]).map cmdPoint).reverse :=
  ⟨by decide,
    buildPolylinePath_reverse_points
      [{ x := 0, y := 0 }, { x := 1, y := 1 }, { x := 2, y := 5 }] (by decide)⟩

/-- C9: a standoff on a side followed by a standoff of the same distance on
the opposite side returns the original point. -/
theorem standoff_opposite_inverse (p : Pt) (s : Side) (d : ℚ) :
    standoff (standoff p s d) (oppositeSide s) d = p := by
  obtain ⟨px, py⟩ := p
  by_cases h1 : s = "top"
  · subst h1
    simp [standoff, oppositeSide, Pt.mk.injEq]
  by_cases h2 : s = "right"
  · subst h2
    simp [standoff, oppositeSide, Pt.mk.injEq]
  by_cases h3 : s = "bottom"
  · subst h3
    simp [standoff, oppositeSide, Pt.mk.injEq]
  by_cases h4 : s = "left"
  · subst h4
    simp [standoff, oppositeSide, Pt.mk.injEq]
  simp [standoff, oppositeSide, h1, h2, h3, h4]

/-- C10: on every two-point input the polyline builder produces exactly the
same path descriptor as the line builder. -/
theorem buildPolylinePath_two_eq_line (a b : Pt) :
    buildPolylinePath [a, b] = buildLinePath a b := rfl

end EuroProxy
